import Mathlib

/-!
Verification of the multi-modal fusion network and results-aggregation
utility (files `network.py` and `results.py`).

Modelling conventions:
* Python floats are modelled as exact rationals `ℚ`.
* A 2-d tensor of shape (batch, features) is a `List (List ℚ)`:
  a list of `batch` rows, each a feature vector.
* Python dictionaries are association lists with `List.lookup`;
  a `KeyError` is the `some "KeyError"` component of a returned pair.
* `np.mean` over an empty list yields NaN in numpy; NaN is modelled as
  `none` of an `Option ℚ`.
* Dropout's randomness is an explicit boolean mask argument, consulted
  only in training mode; evaluation mode ignores it (as `nn.Dropout`).
-/

/-- A feature vector (one row of a 2-d tensor). -/
abbrev Vec : Type := List ℚ

/-- A 2-d tensor of shape (batch, features): a list of rows. -/
abbrev Tensor : Type := List Vec

/-- `t` has shape `(b, n)`: `b` rows, each of width `n`. -/
def hasShape (t : Tensor) (b n : ℕ) : Prop :=
  t.length = b ∧ ∀ r ∈ t, r.length = n

instance (t : Tensor) (b n : ℕ) : Decidable (hasShape t b n) := by
  unfold hasShape; exact inferInstance

/-! ## results.py -/

/-- A python dict mapping strings to floats (inner classification-report row). -/
abbrev ReportRow : Type := List (String × ℚ)

/-- A python classification report: dict from string to inner dicts. -/
abbrev ClassificationReport : Type := List (String × ReportRow)

/-- `Result.__init__` state before a report is applied: all metrics zero. -/
structure Result where
  best_acc : ℚ
  best_epoch : ℚ
  precision : ℚ
  «recall» : ℚ
  f1_score : ℚ
deriving DecidableEq, Repr

/-- `Result()` with `classification_report=None`: all attributes zero. -/
def Result.initEmpty : Result :=
  { best_acc := 0, best_epoch := 0, precision := 0, «recall» := 0, f1_score := 0 }

/-- `Result.set_values_from_classification_report`.  Each line of the python
method looks up two nested dict keys and assigns one attribute, raising
`KeyError` (modelled as `some "KeyError"`) at the first missing key; the
attributes assigned by earlier lines keep their new values, mirroring the
in-place mutation of `self`. -/
def Result.set_values_from_classification_report (r : Result)
    (cr : ClassificationReport) : Result × Option String :=
  match (cr.lookup "weighted avg").bind (fun d => d.lookup "f1-score") with
  | none => (r, some "KeyError")
  | some f1 =>
    let r1 := { r with f1_score := f1 }
    match (cr.lookup "weighted avg").bind (fun d => d.lookup "precision") with
    | none => (r1, some "KeyError")
    | some p =>
      let r2 := { r1 with precision := p }
      match (cr.lookup "weighted avg").bind (fun d => d.lookup "recall") with
      | none => (r2, some "KeyError")
      | some rc =>
        let r3 := { r2 with «recall» := rc }
        match (cr.lookup "best_result").bind (fun d => d.lookup "best_acc") with
        | none => (r3, some "KeyError")
        | some acc =>
          let r4 := { r3 with best_acc := acc }
          match (cr.lookup "best_result").bind (fun d => d.lookup "best_epoch") with
          | none => (r4, some "KeyError")
          | some ep => ({ r4 with best_epoch := ep }, none)

/-- `Result.__init__`: zero-initialise, then apply the report if one is given.
The second component is the `KeyError`, if any, escaping the constructor. -/
def Result.ofClassificationReport : Option ClassificationReport → Result × Option String
  | none => (Result.initEmpty, none)
  | some cr => Result.initEmpty.set_values_from_classification_report cr

/-- All five dict paths read by `set_values_from_classification_report` resolve. -/
def requiredKeysPresent (cr : ClassificationReport) : Bool :=
  ((cr.lookup "weighted avg").bind (fun d => d.lookup "f1-score")).isSome &&
  ((cr.lookup "weighted avg").bind (fun d => d.lookup "precision")).isSome &&
  ((cr.lookup "weighted avg").bind (fun d => d.lookup "recall")).isSome &&
  ((cr.lookup "best_result").bind (fun d => d.lookup "best_acc")).isSome &&
  ((cr.lookup "best_result").bind (fun d => d.lookup "best_epoch")).isSome

/-- `np.mean` over a list of floats: arithmetic mean, NaN (`none`) when empty. -/
def npMean (xs : List ℚ) : Option ℚ :=
  if xs.length = 0 then none else some (xs.sum / (xs.length : ℚ))

/-- Arithmetic mean of a list of rationals (the spec's notion of average). -/
def arithMean (xs : List ℚ) : ℚ := xs.sum / (xs.length : ℚ)

/-- `IterationResults`: ordered sequence of per-fold results. -/
structure IterationResults where
  fold_results : List Result
deriving DecidableEq, Repr

/-- `IterationResults.__init__`: empty fold list. -/
def IterationResults.init : IterationResults := ⟨[]⟩

/-- `IterationResults.add_result`: append to the fold list. -/
def IterationResults.add_result (it : IterationResults) (result : Result) :
    IterationResults :=
  ⟨it.fold_results ++ [result]⟩

/-- The mapping returned by `IterationResults.print_result`:
keys `precision`, `recall`, `f1_score`; each value an `np.mean` result,
where `none` models numpy's NaN. -/
structure ResultSummary where
  precision : Option ℚ
  «recall» : Option ℚ
  f1_score : Option ℚ
deriving DecidableEq, Repr

/-- `IterationResults.print_result`: averages precision, recall and f1 across
the folds with `np.mean` and returns the three averages.  The textual output
printed along the way is a side effect with no returned value and is not
modelled. -/
def IterationResults.print_result (it : IterationResults) : ResultSummary :=
  { precision := npMean (it.fold_results.map Result.precision)
    «recall» := npMean (it.fold_results.map Result.recall)
    f1_score := npMean (it.fold_results.map Result.f1_score) }

/-! ## Theorems about results.py -/

/-- Claim C5: for a non-empty fold sequence, `print_result` returns the
mapping whose `precision`, `recall` and `f1_score` entries are the arithmetic
means of the corresponding per-fold metrics, folds taken in insertion order. -/
theorem print_result_returns_averages (it : IterationResults)
    (h : it.fold_results ≠ []) :
    it.print_result =
      { precision := some (arithMean (it.fold_results.map Result.precision)),
        «recall» := some (arithMean (it.fold_results.map Result.recall)),
        f1_score := some (arithMean (it.fold_results.map Result.f1_score)) } := by
  have hl : it.fold_results.length ≠ 0 := by
    simpa [List.length_eq_zero] using h
  simp [IterationResults.print_result, npMean, arithMean, hl]

/-- A fold result with precision 0.8 and all other metrics zero. -/
def foldA : Result := { Result.initEmpty with precision := 4/5 }

/-- A fold result with precision 0.6 and all other metrics zero. -/
def foldB : Result := { Result.initEmpty with precision := 3/5 }

/-- An iteration holding the two folds `foldA`, `foldB` in insertion order. -/
def twoFolds : IterationResults :=
  (IterationResults.init.add_result foldA).add_result foldB

/-- Witness for C5: two folds with precisions 0.8 and 0.6 average to 0.7. -/
theorem print_result_returns_averages_witness :
    twoFolds.fold_results ≠ [] ∧ twoFolds.print_result.precision = some (7/10) := by
  refine ⟨by decide, ?_⟩
  rw [print_result_returns_averages twoFolds (by decide)]
  norm_num [twoFolds, foldA, foldB, IterationResults.init,
    IterationResults.add_result, arithMean, Result.initEmpty]

/-- Claim C6: `print_result` on an empty fold sequence is not an error: it
returns the mapping whose three entries are the mean of an empty collection,
namely NaN (modelled as `none`). -/
theorem print_result_empty_is_nan :
    IterationResults.init.print_result =
      { precision := none, «recall» := none, f1_score := none } := rfl

/-- Claim C7: `set_values_from_classification_report` raises a lookup error
exactly when one of the five required dict paths ("weighted avg" ×
"precision"/"recall"/"f1-score", "best_result" × "best_acc"/"best_epoch")
is absent; key lookup is the only validation performed. -/
theorem set_values_lookup_error_iff (r : Result) (cr : ClassificationReport) :
    (r.set_values_from_classification_report cr).2.isSome = true ↔
      requiredKeysPresent cr = false := by
  unfold Result.set_values_from_classification_report
  rcases h1 : (cr.lookup "weighted avg").bind (fun d => d.lookup "f1-score") with _ | v1 <;>
  rcases h2 : (cr.lookup "weighted avg").bind (fun d => d.lookup "precision") with _ | v2 <;>
  rcases h3 : (cr.lookup "weighted avg").bind (fun d => d.lookup "recall") with _ | v3 <;>
  rcases h4 : (cr.lookup "best_result").bind (fun d => d.lookup "best_acc") with _ | v4 <;>
  rcases h5 : (cr.lookup "best_result").bind (fun d => d.lookup "best_epoch") with _ | v5 <;>
  simp [requiredKeysPresent, h1, h2, h3, h4, h5]

/-- The classification-report mapping of claim C8. -/
def reportExample : ClassificationReport :=
  [("weighted avg", [("precision", 4/5), ("recall", 7/10), ("f1-score", 3/4)]),
   ("best_result", [("best_acc", 9/10), ("best_epoch", 3)])]

/-- Claim C8: a `Result` built with no report has all five metrics zero, and a
`Result` built from `reportExample` takes precision 0.8, recall 0.7,
f1_score 0.75, best_acc 0.9, best_epoch 3, with no error. -/
theorem result_construction_examples :
    ((Result.ofClassificationReport none).1.precision = 0 ∧
     (Result.ofClassificationReport none).1.recall = 0 ∧
     (Result.ofClassificationReport none).1.f1_score = 0 ∧
     (Result.ofClassificationReport none).1.best_acc = 0 ∧
     (Result.ofClassificationReport none).1.best_epoch = 0 ∧
     (Result.ofClassificationReport none).2 = none) ∧
    ((Result.ofClassificationReport (some reportExample)).1.precision = 4/5 ∧
     (Result.ofClassificationReport (some reportExample)).1.recall = 7/10 ∧
     (Result.ofClassificationReport (some reportExample)).1.f1_score = 3/4 ∧
     (Result.ofClassificationReport (some reportExample)).1.best_acc = 9/10 ∧
     (Result.ofClassificationReport (some reportExample)).1.best_epoch = 3 ∧
     (Result.ofClassificationReport (some reportExample)).2 = none) :=
  ⟨⟨rfl, rfl, rfl, rfl, rfl, rfl⟩, ⟨rfl, rfl, rfl, rfl, rfl, rfl⟩⟩

/-- A report with a complete "weighted avg" entry but no "best_result" key. -/
def reportMissingBest : ClassificationReport :=
  [("weighted avg", [("precision", 4/5), ("recall", 7/10), ("f1-score", 3/4)])]

/-- A result carrying distinctive prior values in every field. -/
def priorResult : Result :=
  { best_acc := 9/10, best_epoch := 5, precision := 1/10, «recall» := 1/5,
    f1_score := 3/10 }

/-- Claim C10: on a report lacking "best_result", the setter raises the lookup
error only after f1_score, precision and recall were already overwritten from
the report, while best_acc and best_epoch keep their prior values. -/
theorem set_values_not_atomic_on_error :
    (priorResult.set_values_from_classification_report reportMissingBest).2 =
        some "KeyError" ∧
    (priorResult.set_values_from_classification_report reportMissingBest).1 =
      { best_acc := 9/10, best_epoch := 5, precision := 4/5, «recall» := 7/10,
        f1_score := 3/4 } :=
  ⟨rfl, rfl⟩

/-! ## network.py -/

/-- Elementwise `tensor * scalar` on one row (as in `text * self.weight_1`). -/
def smulRow (w : ℚ) (r : Vec) : Vec := r.map (fun v => v * w)

/-- Elementwise `tensor * scalar`, the scalar broadcast over batch and
feature dimensions. -/
def smulT (w : ℚ) (t : Tensor) : Tensor := t.map (smulRow w)

/-- `F.relu` on one row. -/
def reluRow (r : Vec) : Vec := r.map (fun v => max v 0)

/-- `F.relu`: elementwise rectified linear unit over a tensor. -/
def reluT (t : Tensor) : Tensor := t.map reluRow

/-- `torch.cat([x, y, z], dim=-1)`: rowwise concatenation along features. -/
def cat3 : Tensor → Tensor → Tensor → Tensor
  | x :: xs, y :: ys, z :: zs => (x ++ y ++ z) :: cat3 xs ys zs
  | _, _, _ => []

/-- Map with the element's index available, counting from `i`. -/
def mapIdxFrom (f : ℕ → α → β) : ℕ → List α → List β
  | _, [] => []
  | i, a :: as => f i a :: mapIdxFrom f (i + 1) as

/-- One row of training-mode dropout: positions the sampled mask keeps are
rescaled by `1 / (1 - p)` (inverted dropout, as `nn.Dropout`), the others
are zeroed. -/
def dropoutRow (p : ℚ) (keep : ℕ → Bool) (r : Vec) : Vec :=
  mapIdxFrom (fun j v => if keep j then v / (1 - p) else 0) 0 r

/-- `nn.Dropout(p)` module. -/
structure Dropout where
  p : ℚ

/-- `nn.Dropout.forward`: identity in evaluation mode; in training mode each
element is kept-and-rescaled or zeroed according to the sampled mask. -/
def Dropout.forward (d : Dropout) (training : Bool) (mask : ℕ → ℕ → Bool)
    (t : Tensor) : Tensor :=
  if training then mapIdxFrom (fun i r => dropoutRow d.p (mask i) r) 0 t else t

/-- `nn.BatchNorm1d(n)` state: per-feature affine parameters `gamma`/`beta`
and running statistics.  `invStd` stands for `1 / sqrt(running_var + eps)`,
stored directly because the square root has no exact rational form.  The
forward map below is the evaluation-mode semantics
`gamma * ((x - running_mean) * invStd) + beta`; training-mode batch
statistics are not modelled (they change values, never shapes). -/
structure BatchNorm1d where
  gamma : Vec
  beta : Vec
  running_mean : Vec
  invStd : Vec

/-- Evaluation-mode normalisation of one row. -/
def bnormRow : Vec → Vec → Vec → Vec → Vec → Vec
  | g :: gs, b :: bs, m :: ms, s :: ss, v :: vs =>
      (g * ((v - m) * s) + b) :: bnormRow gs bs ms ss vs
  | _, _, _, _, _ => []

/-- `nn.BatchNorm1d.forward` in evaluation mode, rowwise over the batch. -/
def BatchNorm1d.forward (bn : BatchNorm1d) (t : Tensor) : Tensor :=
  t.map (fun r => bnormRow bn.gamma bn.beta bn.running_mean bn.invStd r)

/-- All parameter vectors of the layer have the configured feature width. -/
def BatchNorm1d.wf (bn : BatchNorm1d) (n : ℕ) : Prop :=
  bn.gamma.length = n ∧ bn.beta.length = n ∧
  bn.running_mean.length = n ∧ bn.invStd.length = n

/-- Dot product of two feature vectors. -/
def dot (w x : Vec) : ℚ := (List.zipWith (fun a b => a * b) w x).sum

/-- `nn.Linear` parameters: `weight` holds one row per output feature. -/
structure Linear where
  weight : List Vec
  bias : Vec

/-- `nn.Linear.forward`: `y = x Wᵀ + b`, rowwise over the batch. -/
def Linear.forward (l : Linear) (t : Tensor) : Tensor :=
  t.map (fun r => List.zipWith (fun wr b => dot wr r + b) l.weight l.bias)

/-- Dimension contract of `nn.Linear(inSize, outSize)`. -/
def Linear.wf (l : Linear) (inSize outSize : ℕ) : Prop :=
  l.weight.length = outSize ∧ (∀ wr ∈ l.weight, wr.length = inSize) ∧
  l.bias.length = outSize

/-- `ModalityFusion`: three scalar modality weights. -/
structure ModalityFusion where
  weight_1 : ℚ
  weight_2 : ℚ
  weight_3 : ℚ

/-- `ModalityFusion.__init__`: each weight is `torch.ones(1)`. -/
def ModalityFusion.init : ModalityFusion :=
  { weight_1 := 1, weight_2 := 1, weight_3 := 1 }

/-- `ModalityFusion.forward`: weight each modality, then concatenate along
the last dimension in the order text, audio, video. -/
def ModalityFusion.forward (m : ModalityFusion)
    (text audio video : Tensor) : Tensor :=
  cat3 (smulT m.weight_1 text) (smulT m.weight_2 audio)
    (smulT m.weight_3 video)

/-- `SubNet`: one batch-norm layer, one dropout layer, three linear layers. -/
structure SubNet where
  norm : BatchNorm1d
  drop : Dropout
  linear_1 : Linear
  linear_2 : Linear
  linear_3 : Linear

/-- Layer-dimension contract of `SubNet.__init__(in_size, hidden_size, dropout)`. -/
def SubNet.wf (s : SubNet) (in_size hidden_size : ℕ) : Prop :=
  s.norm.wf in_size ∧ s.linear_1.wf in_size hidden_size ∧
  s.linear_2.wf hidden_size hidden_size ∧ s.linear_3.wf hidden_size hidden_size

/-- `SubNet.forward`: batch normalisation, dropout, then three linear
projections each followed by `F.relu`. -/
def SubNet.forward (s : SubNet) (training : Bool) (mask : ℕ → ℕ → Bool)
    (x : Tensor) : Tensor :=
  let normed := s.norm.forward x
  let dropped := s.drop.forward training mask normed
  let y_1 := reluT (s.linear_1.forward dropped)
  let y_2 := reluT (s.linear_2.forward y_1)
  let y_3 := reluT (s.linear_3.forward y_2)
  y_3

/-- The dimension hyperparameters read from the external `config` module. -/
structure Config where
  TEXT_DIM : ℕ
  VIDEO_DIM : ℕ
  AUDIO_DIM : ℕ
  TEXT_HIDDEN : ℕ
  VIDEO_HIDDEN : ℕ
  AUDIO_HIDDEN : ℕ
  CONTEXT_HIDDEN : ℕ
  SPEAKER_HIDDEN : ℕ
  POST_FUSION_DIM : ℕ

/-- `WeightedMultiModalFusionNetwork`: five per-modality subnets, the fusion
module, one dropout module reused at four call sites, three post-fusion
linear layers and the final 2-way classification head `fc`. -/
structure WeightedMultiModalFusionNetwork where
  video_subnet : SubNet
  audio_subnet : SubNet
  text_subnet : SubNet
  context_subnet : SubNet
  speaker_subnet : SubNet
  fusion : ModalityFusion
  post_fusion_dropout : Dropout
  post_fusion_layer_1 : Linear
  post_fusion_layer_2 : Linear
  post_fusion_layer_3 : Linear
  fc : Linear

/-- Dimension contract established by
`WeightedMultiModalFusionNetwork.__init__(speaker_num)`. -/
def WeightedMultiModalFusionNetwork.wf (net : WeightedMultiModalFusionNetwork)
    (cfg : Config) (speaker_num : ℕ) : Prop :=
  net.video_subnet.wf cfg.VIDEO_DIM cfg.VIDEO_HIDDEN ∧
  net.audio_subnet.wf cfg.AUDIO_DIM cfg.AUDIO_HIDDEN ∧
  net.text_subnet.wf cfg.TEXT_DIM cfg.TEXT_HIDDEN ∧
  net.context_subnet.wf cfg.TEXT_DIM cfg.CONTEXT_HIDDEN ∧
  net.speaker_subnet.wf speaker_num cfg.SPEAKER_HIDDEN ∧
  net.post_fusion_layer_1.wf
    (cfg.TEXT_HIDDEN + cfg.VIDEO_HIDDEN + cfg.AUDIO_HIDDEN)
    cfg.POST_FUSION_DIM ∧
  net.post_fusion_layer_2.wf cfg.POST_FUSION_DIM cfg.POST_FUSION_DIM ∧
  net.post_fusion_layer_3.wf
    (cfg.POST_FUSION_DIM + cfg.SPEAKER_HIDDEN + cfg.CONTEXT_HIDDEN)
    cfg.POST_FUSION_DIM ∧
  net.fc.wf cfg.POST_FUSION_DIM 2

/-- `WeightedMultiModalFusionNetwork.forward`.  `rng k` is the dropout mask
sampled at the k-th dropout call site of this pass: the five subnet dropouts,
then the four applications of `post_fusion_dropout`. -/
def WeightedMultiModalFusionNetwork.forward
    (net : WeightedMultiModalFusionNetwork) (training : Bool)
    (rng : ℕ → ℕ → ℕ → Bool)
    (text_x video_x audio_x speaker_x context_x : Tensor) : Tensor :=
  let video_h := net.video_subnet.forward training (rng 0) video_x
  let audio_h := net.audio_subnet.forward training (rng 1) audio_x
  let text_h := net.text_subnet.forward training (rng 2) text_x
  let speaker_h := net.speaker_subnet.forward training (rng 3) speaker_x
  let context_h := net.context_subnet.forward training (rng 4) context_x
  let fusion_h := net.fusion.forward text_h audio_h video_h
  let x1 := net.post_fusion_dropout.forward training (rng 5) fusion_h
  let x2 := reluT (net.post_fusion_layer_1.forward x1)
  let x3 := net.post_fusion_dropout.forward training (rng 6) x2
  let x4 := reluT (net.post_fusion_layer_2.forward x3)
  let late_fusion := cat3 x4 speaker_h context_h
  let x5 := net.post_fusion_dropout.forward training (rng 7) late_fusion
  let x6 := reluT (net.post_fusion_layer_3.forward x5)
  let x7 := net.post_fusion_dropout.forward training (rng 8) x6
  net.fc.forward x7

/-! ## Shape lemmas for the tensor operations -/

theorem length_mapIdxFrom (f : ℕ → α → β) (i : ℕ) (l : List α) :
    (mapIdxFrom f i l).length = l.length := by
  induction l generalizing i with
  | nil => rfl
  | cons a as ih => simp [mapIdxFrom, ih]

theorem mem_mapIdxFrom {f : ℕ → α → β} {i : ℕ} {l : List α} {b : β}
    (hb : b ∈ mapIdxFrom f i l) : ∃ j a, a ∈ l ∧ b = f j a := by
  induction l generalizing i with
  | nil => simp [mapIdxFrom] at hb
  | cons a as ih =>
    simp only [mapIdxFrom, List.mem_cons] at hb
    rcases hb with h | h
    · exact ⟨i, a, by simp, h⟩
    · rcases ih h with ⟨j, a2, ha2, hb2⟩
      exact ⟨j, a2, by simp [ha2], hb2⟩

theorem reluT_shape {t : Tensor} {b n : ℕ} (h : hasShape t b n) :
    hasShape (reluT t) b n := by
  obtain ⟨hl, hr⟩ := h
  refine ⟨by simp [reluT, hl], ?_⟩
  intro r hrm
  rcases List.mem_map.mp hrm with ⟨r0, hr0, rfl⟩
  simp [reluRow, hr _ hr0]

theorem smulT_shape (w : ℚ) {t : Tensor} {b n : ℕ} (h : hasShape t b n) :
    hasShape (smulT w t) b n := by
  obtain ⟨hl, hr⟩ := h
  refine ⟨by simp [smulT, hl], ?_⟩
  intro r hrm
  rcases List.mem_map.mp hrm with ⟨r0, hr0, rfl⟩
  simp [smulRow, hr _ hr0]

theorem dropout_forward_shape (d : Dropout) (training : Bool)
    (mask : ℕ → ℕ → Bool) {t : Tensor} {b n : ℕ} (h : hasShape t b n) :
    hasShape (d.forward training mask t) b n := by
  obtain ⟨hl, hr⟩ := h
  cases training with
  | false => exact ⟨hl, hr⟩
  | true =>
    refine ⟨by simp [Dropout.forward, length_mapIdxFrom, hl], ?_⟩
    intro r hrm
    simp only [Dropout.forward, if_pos] at hrm
    rcases mem_mapIdxFrom hrm with ⟨j, r0, hr0, rfl⟩
    simp [dropoutRow, length_mapIdxFrom, hr _ hr0]

theorem bnormRow_length (g bt m s v : Vec) :
    (bnormRow g bt m s v).length =
      min g.length (min bt.length (min m.length (min s.length v.length))) := by
  induction g generalizing bt m s v with
  | nil => simp [bnormRow]
  | cons gh gt ih =>
    cases bt <;> cases m <;> cases s <;> cases v <;>
      simp [bnormRow, ih] <;> omega

theorem batchnorm_forward_shape (bn : BatchNorm1d) {n : ℕ} (hwf : bn.wf n)
    {t : Tensor} {b : ℕ} (h : hasShape t b n) : hasShape (bn.forward t) b n := by
  obtain ⟨hg, hb2, hm, hs⟩ := hwf
  obtain ⟨hl, hr⟩ := h
  refine ⟨by simp [BatchNorm1d.forward, hl], ?_⟩
  intro r hrm
  rcases List.mem_map.mp hrm with ⟨r0, hr0, rfl⟩
  simp [bnormRow_length, hg, hb2, hm, hs, hr _ hr0]

theorem linear_forward_shape (l : Linear) {i o : ℕ} (hwf : l.wf i o)
    {t : Tensor} {b m : ℕ} (h : hasShape t b m) :
    hasShape (l.forward t) b o := by
  obtain ⟨hw, _, hb2⟩ := hwf
  obtain ⟨hl, _⟩ := h
  refine ⟨by simp [Linear.forward, hl], ?_⟩
  intro r hrm
  rcases List.mem_map.mp hrm with ⟨r0, hr0, rfl⟩
  simp [List.length_zipWith, hw, hb2]

theorem cat3_shape {t a v : Tensor} {b n1 n2 n3 : ℕ}
    (ht : hasShape t b n1) (ha : hasShape a b n2) (hv : hasShape v b n3) :
    hasShape (cat3 t a v) b (n1 + n2 + n3) := by
  induction t generalizing a v b with
  | nil =>
    obtain ⟨hlt, _⟩ := ht
    refine ⟨by simpa [cat3] using hlt, ?_⟩
    intro r hrm
    simp [cat3] at hrm
  | cons rw rws ih =>
    obtain ⟨hlt, hrt⟩ := ht
    obtain ⟨hla, hra⟩ := ha
    obtain ⟨hlv, hrv⟩ := hv
    cases a with
    | nil => simp at hla hlt; omega
    | cons ra ras =>
      cases v with
      | nil => simp at hlv hlt; omega
      | cons rv rvs =>
        simp only [List.length_cons] at hlt hla hlv
        have htl : hasShape rws rws.length n1 :=
          ⟨rfl, fun r hr => hrt r (List.mem_cons_of_mem _ hr)⟩
        have hal : hasShape ras rws.length n2 :=
          ⟨by omega, fun r hr => hra r (List.mem_cons_of_mem _ hr)⟩
        have hvl : hasShape rvs rws.length n3 :=
          ⟨by omega, fun r hr => hrv r (List.mem_cons_of_mem _ hr)⟩
        obtain ⟨ihl, ihr⟩ := ih htl hal hvl
        refine ⟨?_, ?_⟩
        · simp [cat3, ihl]; omega
        · intro r hrm
          simp only [cat3, List.mem_cons] at hrm
          rcases hrm with rfl | hrm
          · have h1 := hrt rw (by simp)
            have h2 := hra ra (by simp)
            have h3 := hrv rv (by simp)
            simp [h1, h2, h3]; omega
          · exact ihr r hrm

theorem cat3_getElem? {t a v : Tensor} {i : ℕ} {rt ra rv : Vec}
    (ht : t[i]? = some rt) (ha : a[i]? = some ra) (hv : v[i]? = some rv) :
    (cat3 t a v)[i]? = some (rt ++ ra ++ rv) := by
  induction t generalizing a v i with
  | nil => simp at ht
  | cons x xs ih =>
    cases a with
    | nil => simp at ha
    | cons y ys =>
      cases v with
      | nil => simp at hv
      | cons z zs =>
        cases i with
        | zero =>
          simp only [List.getElem?_cons_zero, Option.some.injEq] at ht ha hv
          subst ht; subst ha; subst hv
          simp [cat3]
        | succ j =>
          simp only [List.getElem?_cons_succ] at ht ha hv
          simpa [cat3] using ih ht ha hv

/-- `SubNet.forward` sends a `(b, in_size)` tensor to a `(b, hidden_size)`
tensor, for any training flag and dropout mask (shared helper). -/
theorem subnet_shape_aux (s : SubNet) {in_size hidden_size : ℕ}
    (hwf : s.wf in_size hidden_size) (training : Bool) (mask : ℕ → ℕ → Bool)
    {x : Tensor} {b : ℕ} (hx : hasShape x b in_size) :
    hasShape (s.forward training mask x) b hidden_size := by
  obtain ⟨hn, h1, h2, h3⟩ := hwf
  exact reluT_shape (linear_forward_shape _ h3 (reluT_shape
    (linear_forward_shape _ h2 (reluT_shape (linear_forward_shape _ h1
      (dropout_forward_shape _ _ _ (batchnorm_forward_shape _ hn hx)))))))

instance (l : Linear) (i o : ℕ) : Decidable (l.wf i o) := by
  unfold Linear.wf; exact inferInstance

instance (bn : BatchNorm1d) (n : ℕ) : Decidable (bn.wf n) := by
  unfold BatchNorm1d.wf; exact inferInstance

instance (s : SubNet) (i h : ℕ) : Decidable (s.wf i h) := by
  unfold SubNet.wf; exact inferInstance

instance (net : WeightedMultiModalFusionNetwork) (cfg : Config) (k : ℕ) :
    Decidable (net.wf cfg k) := by
  unfold WeightedMultiModalFusionNetwork.wf; exact inferInstance

/-- Scaling by the weight 1 changes nothing (shared helper for C9). -/
theorem smulT_one (t : Tensor) : smulT 1 t = t := by
  induction t with
  | nil => rfl
  | cons r rs ih => simpa [smulT, smulRow] using ih

/-! ## Theorems about network.py -/

/-- Claim C3: `SubNet.forward` applies batch normalisation, dropout, then
three linear projections each followed by relu, and sends any `(b, in_size)`
input with `b ≥ 1` to a `(b, hidden_size)` output, whatever `in_size` is. -/
theorem subnet_forward_output_shape (s : SubNet) (in_size hidden_size : ℕ)
    (training : Bool) (mask : ℕ → ℕ → Bool) (x : Tensor) (b : ℕ)
    (hwf : s.wf in_size hidden_size) (hb : 1 ≤ b)
    (hx : hasShape x b in_size) :
    hasShape (s.forward training mask x) b hidden_size :=
  subnet_shape_aux s hwf training mask hx

/-- An evaluation-mode identity batch-norm layer over one feature. -/
def bn1 : BatchNorm1d :=
  { gamma := [1], beta := [0], running_mean := [0], invStd := [1] }

/-- A 1×1 linear layer. -/
def lin1 : Linear := { weight := [[1]], bias := [0] }

/-- A concrete subnet with `in_size = hidden_size = 1`. -/
def subnet1 : SubNet :=
  { norm := bn1, drop := { p := 1/2 }, linear_1 := lin1, linear_2 := lin1,
    linear_3 := lin1 }

/-- Witness for C3 at `subnet1`, a training-mode pass on the batch `[[3]]`. -/
theorem subnet_forward_output_shape_witness :
    subnet1.wf 1 1 ∧ 1 ≤ 1 ∧ hasShape [[3]] 1 1 ∧
    hasShape (subnet1.forward true (fun _ _ => true) [[3]]) 1 1 :=
  ⟨by decide, le_refl 1, by decide,
    subnet_forward_output_shape subnet1 1 1 true (fun _ _ => true) [[3]] 1
      (by decide) (le_refl 1) (by decide)⟩

/-- Claim C2: `ModalityFusion.forward` scales the text, audio and video
tensors by `weight_1`, `weight_2`, `weight_3` respectively and concatenates
them along the feature axis in that fixed order: the output has width
`n1 + n2 + n3`, and each output row is the weighted text row, audio row and
video row appended in order. -/
theorem fusion_forward_weighted_concat (m : ModalityFusion)
    (text audio video : Tensor) (b n1 n2 n3 : ℕ)
    (htext : hasShape text b n1) (haudio : hasShape audio b n2)
    (hvideo : hasShape video b n3) :
    hasShape (m.forward text audio video) b (n1 + n2 + n3) ∧
    ∀ (i : ℕ) (rt ra rv : Vec), text[i]? = some rt → audio[i]? = some ra →
      video[i]? = some rv →
      (m.forward text audio video)[i]? =
        some (smulRow m.weight_1 rt ++ smulRow m.weight_2 ra ++
          smulRow m.weight_3 rv) := by
  constructor
  · exact cat3_shape (smulT_shape _ htext) (smulT_shape _ haudio)
      (smulT_shape _ hvideo)
  · intro i rt ra rv h1 h2 h3
    apply cat3_getElem? <;> simp [smulT, h1, h2, h3]

/-- The fusion module of the claim-C2 example: weights 2, 3 and 5. -/
def fusion235 : ModalityFusion := { weight_1 := 2, weight_2 := 3, weight_3 := 5 }

/-- Witness for C2: with weights 2, 3, 5 and unit input vectors the output row
is 2 in the text segment, 3 in the audio segment and 5 in the video segment. -/
theorem fusion_forward_weighted_concat_witness :
    hasShape [[1]] 1 1 ∧
    hasShape (fusion235.forward [[1]] [[1]] [[1]]) 1 (1 + 1 + 1) ∧
    (fusion235.forward [[1]] [[1]] [[1]])[0]? = some [2, 3, 5] := by
  have h := fusion_forward_weighted_concat fusion235 [[1]] [[1]] [[1]] 1 1 1 1
    (by decide) (by decide) (by decide)
  refine ⟨by decide, h.1, ?_⟩
  rw [h.2 0 [1] [1] [1] rfl rfl rfl]
  norm_num [smulRow, fusion235]

/-- Claim C9: a freshly constructed `ModalityFusion` has all three scalar
weights equal to 1, and its forward pass is the plain unweighted
concatenation of text, audio and video along the feature axis. -/
theorem fusion_init_is_plain_concat :
    ModalityFusion.init.weight_1 = 1 ∧ ModalityFusion.init.weight_2 = 1 ∧
    ModalityFusion.init.weight_3 = 1 ∧
    ∀ text audio video : Tensor,
      ModalityFusion.init.forward text audio video = cat3 text audio video := by
  refine ⟨rfl, rfl, rfl, fun text audio video => ?_⟩
  simp [ModalityFusion.forward, ModalityFusion.init, smulT_one]

/-- Claim C1: `WeightedMultiModalFusionNetwork.forward` encodes the five
inputs through their subnets, fuses text/audio/video, runs the post-fusion
stack (dropout, linear, relu, dropout, linear, relu, concatenation with the
speaker and context encodings, dropout, linear, relu, dropout, final linear),
and maps any correctly dimensioned five-tensor batch to a `(b, 2)` tensor. -/
theorem network_forward_shape (net : WeightedMultiModalFusionNetwork)
    (cfg : Config) (speaker_num : ℕ) (training : Bool) (rng : ℕ → ℕ → ℕ → Bool)
    (text_x video_x audio_x speaker_x context_x : Tensor) (b : ℕ)
    (hwf : net.wf cfg speaker_num)
    (htext : hasShape text_x b cfg.TEXT_DIM)
    (hvideo : hasShape video_x b cfg.VIDEO_DIM)
    (haudio : hasShape audio_x b cfg.AUDIO_DIM)
    (hspeaker : hasShape speaker_x b speaker_num)
    (hcontext : hasShape context_x b cfg.TEXT_DIM) :
    hasShape (net.forward training rng text_x video_x audio_x speaker_x context_x)
      b 2 := by
  obtain ⟨hv, ha, ht, hc, hs, hp1, hp2, hp3, hfc⟩ := hwf
  have hvh := subnet_shape_aux _ hv training (rng 0) hvideo
  have hah := subnet_shape_aux _ ha training (rng 1) haudio
  have hth := subnet_shape_aux _ ht training (rng 2) htext
  have hsh := subnet_shape_aux _ hs training (rng 3) hspeaker
  have hch := subnet_shape_aux _ hc training (rng 4) hcontext
  have hfus := cat3_shape (smulT_shape net.fusion.weight_1 hth)
    (smulT_shape net.fusion.weight_2 hah) (smulT_shape net.fusion.weight_3 hvh)
  simp only [WeightedMultiModalFusionNetwork.forward, ModalityFusion.forward]
  exact linear_forward_shape _ hfc
    (dropout_forward_shape _ _ _
      (reluT_shape (linear_forward_shape _ hp3
        (dropout_forward_shape _ _ _
          (cat3_shape (reluT_shape (linear_forward_shape _ hp2
            (dropout_forward_shape _ _ _
              (reluT_shape (linear_forward_shape _ hp1
                (dropout_forward_shape _ _ _ hfus)))))) hsh hch)))))

/-- The all-ones configuration used by the claim-C1 witness. -/
def cfg1 : Config :=
  { TEXT_DIM := 1, VIDEO_DIM := 1, AUDIO_DIM := 1, TEXT_HIDDEN := 1,
    VIDEO_HIDDEN := 1, AUDIO_HIDDEN := 1, CONTEXT_HIDDEN := 1,
    SPEAKER_HIDDEN := 1, POST_FUSION_DIM := 1 }

/-- A 3-to-1 linear layer. -/
def lin31 : Linear := { weight := [[1, 1, 1]], bias := [0] }

/-- A 1-to-2 linear layer (the classification head of the witness). -/
def lin12 : Linear := { weight := [[1], [1]], bias := [0, 0] }

/-- A concrete network correctly dimensioned for `cfg1` and one speaker. -/
def net1 : WeightedMultiModalFusionNetwork :=
  { video_subnet := subnet1, audio_subnet := subnet1, text_subnet := subnet1,
    context_subnet := subnet1, speaker_subnet := subnet1,
    fusion := ModalityFusion.init, post_fusion_dropout := { p := 1/2 },
    post_fusion_layer_1 := lin31, post_fusion_layer_2 := lin1,
    post_fusion_layer_3 := lin31, fc := lin12 }

/-- Witness for C1 at the concrete network `net1` on a batch of one. -/
theorem network_forward_shape_witness :
    net1.wf cfg1 1 ∧ hasShape [[1]] 1 1 ∧
    hasShape (net1.forward false (fun _ _ _ => false) [[1]] [[1]] [[1]] [[1]] [[1]])
      1 2 :=
  ⟨by decide, by decide,
    network_forward_shape net1 cfg1 1 false (fun _ _ _ => false)
      [[1]] [[1]] [[1]] [[1]] [[1]] 1 (by decide) (by decide) (by decide)
      (by decide) (by decide) (by decide)⟩

/-- Claim C4: with dropout disabled (evaluation mode, `training = false`) and
fixed learned weights, the forward pass is deterministic — it does not read
the dropout randomness, so two calls on identical inputs agree whatever masks
were sampled. -/
theorem network_forward_deterministic_eval
    (net : WeightedMultiModalFusionNetwork) (rng1 rng2 : ℕ → ℕ → ℕ → Bool)
    (text_x video_x audio_x speaker_x context_x : Tensor) :
    net.forward false rng1 text_x video_x audio_x speaker_x context_x =
      net.forward false rng2 text_x video_x audio_x speaker_x context_x := by
  simp only [WeightedMultiModalFusionNetwork.forward, SubNet.forward,
    Dropout.forward, Bool.false_eq_true, if_false]
